import Mathlib

/-!
Shallow embedding of the BitSparrow binary codec (`src/lib.rs`):
an `Encoder` that serialises primitive values into a big-endian byte
sequence, and a `Decoder` that reads them back through an advancing
cursor.  Bytes are modelled as `Nat` values below 256; machine words
are `Nat` with explicit `% 2^w` truncation at every Rust `as` cast;
signed integers are `Int` values transported through their two's
complement bit patterns; 32- and 64-bit floats are represented by
their IEEE-754 bit patterns (the Rust code only ever transmutes them
to `u32`/`u64` and never inspects them numerically, so the bit
pattern is the whole observable content).
-/

/-- The Rust `usize::MAX` sentinel (64-bit target), used as the
"no active boolean run" marker. -/
def USIZE_MAX : Nat := 2 ^ 64 - 1

/-- Embeds `struct Error(String)` from `src/lib.rs`. -/
structure Error where
  msg : String
deriving DecidableEq, Repr

/-- `Error::new` from `src/lib.rs`. -/
def Error.new (m : String) : Error := ⟨m⟩

/-- `Error::out_of_bounds` from `src/lib.rs`. -/
def Error.out_of_bounds : Error := Error.new ("Attempted to read out of bounds")

/-- Embeds `struct Encoder` from `src/lib.rs`: output buffer, boolean
bit-packing state, and the deferred error surfaced at finalization. -/
structure Encoder where
  data : List Nat
  bool_index : Nat
  bool_shift : Nat
  last_error : Option Error
deriving DecidableEq, Repr

/-- `Encoder::new` from `src/lib.rs`. -/
def Encoder.new : Encoder :=
  { data := [], bool_index := USIZE_MAX, bool_shift := 0, last_error := none }

/-- `Encoder::uint8`: push one byte.  The `% 256` records the `u8`
type of the argument. -/
def Encoder.uint8 (e : Encoder) (v : Nat) : Encoder :=
  { e with data := e.data ++ [v % 256] }

/-- `Encoder::uint16`: big-endian, `(v >> 8) as u8` then `(v & 0xFF) as u8`. -/
def Encoder.uint16 (e : Encoder) (v : Nat) : Encoder :=
  (e.uint8 (v >>> 8)).uint8 (v &&& 0xFF)

/-- `Encoder::uint32`: big-endian, four `u8` casts. -/
def Encoder.uint32 (e : Encoder) (v : Nat) : Encoder :=
  ((((e.uint8 (v >>> 24)).uint8 ((v >>> 16) &&& 0xFF)).uint8
    ((v >>> 8) &&& 0xFF)).uint8 (v &&& 0xFF))

/-- `Encoder::int8`: transmute `i8 → u8` (two's complement) then `uint8`. -/
def Encoder.int8 (e : Encoder) (v : Int) : Encoder :=
  e.uint8 (v % 256).toNat

/-- `Encoder::int16`: transmute `i16 → u16` then `uint16`. -/
def Encoder.int16 (e : Encoder) (v : Int) : Encoder :=
  e.uint16 (v % 65536).toNat

/-- `Encoder::int32`: transmute `i32 → u32` then `uint32`. -/
def Encoder.int32 (e : Encoder) (v : Int) : Encoder :=
  e.uint32 (v % 4294967296).toNat

/-- `Encoder::float32`: transmute `f32 → u32` then `uint32`; the
argument here is the IEEE-754 bit pattern of the float. -/
def Encoder.float32 (e : Encoder) (bits : Nat) : Encoder :=
  e.uint32 bits

/-- `Encoder::float64`: transmute `f64 → u64`, then the high and low
32-bit halves via `uint32`; the argument is the IEEE-754 bit pattern. -/
def Encoder.float64 (e : Encoder) (bits : Nat) : Encoder :=
  (e.uint32 (bits >>> 32)).uint32 (bits &&& 0xFFFFFFFF)

/-- `Encoder::bool`: opportunistic bit packing.  If the previous write
was a boolean at the current buffer end and fewer than 8 bits are
packed, OR the new bit into the run byte; otherwise append a fresh
byte holding the bit at position 0. -/
def Encoder.bool (e : Encoder) (b : Bool) : Encoder :=
  let bool_bit : Nat := if b then 1 else 0
  let index := e.data.length
  if e.bool_index = index ∧ e.bool_shift < 7 then
    let shift := e.bool_shift + 1
    { e with
      bool_shift := shift,
      data := e.data.set (index - 1)
        ((e.data.getD (index - 1) 0) ||| (bool_bit <<< shift)) }
  else
    { e with bool_index := index + 1, bool_shift := 0 }.uint8 bool_bit

/-- `Encoder::size`: variable-length size encoding (1, 2 or 4 bytes);
values above `0x3FFFFFFF` set the deferred error and append nothing. -/
def Encoder.size (e : Encoder) (size : Nat) : Encoder :=
  if size > 0x3FFFFFFF then
    { e with last_error := some (Error.new ("[size] value is too large")) }
  else if size < 0x80 then
    e.uint8 size
  else if size < 0x4000 then
    e.uint16 (size ||| 0x8000)
  else
    e.uint32 (size ||| 0xC0000000)

/-- `Encoder::bytes`: length prefix via `size`, then the raw bytes. -/
def Encoder.bytes (e : Encoder) (bytes : List Nat) : Encoder :=
  if bytes.length > 0x3FFFFFFF then
    { e with last_error := some (Error.new ("[bytes] is too long")) }
  else
    let sref := e.size bytes.length
    { sref with data := sref.data ++ bytes }

/-- `Encoder::string`: identical to `bytes` over the UTF-8 encoding of
the text (the argument is the text's byte sequence). -/
def Encoder.string (e : Encoder) (string : List Nat) : Encoder :=
  if string.length > 0x3FFFFFFF then
    { e with last_error := some (Error.new ("[string] is too long")) }
  else
    let sref := e.size string.length
    { sref with data := sref.data ++ string }

/-- `Encoder::end` (finalization; `end` is reserved in Lean): returns
the buffer, unless an error was deferred. -/
def Encoder.finalize (e : Encoder) : Except Error (List Nat) :=
  match e.last_error with
  | some error => .error error
  | none => .ok e.data

/-- Embeds `struct Decoder` from `src/lib.rs`.  The `Cell` fields are
modelled by threading the whole state through every read. -/
structure Decoder where
  index : Nat
  length : Nat
  data : List Nat
  bool_index : Nat
  bool_shift : Nat
deriving DecidableEq, Repr

/-- `Decoder::new` from `src/lib.rs`. -/
def Decoder.new (data : List Nat) : Decoder :=
  { index := 0, length := data.length, data := data,
    bool_index := USIZE_MAX, bool_shift := 0 }

/-- The `try!` macro: propagate an error (keeping the state mutated so
far, as the Rust `Cell` fields are), or continue with the value. -/
def rtry {α β : Type} (r : Except Error α × Decoder)
    (k : α → Decoder → Except Error β × Decoder) : Except Error β × Decoder :=
  match r with
  | (.error e, d) => (.error e, d)
  | (.ok v, d) => k v d

/-- `Decoder::uint8`: bounds check, then read one byte and advance. -/
def Decoder.uint8 (d : Decoder) : Except Error Nat × Decoder :=
  if d.index ≥ d.length then
    (.error Error.out_of_bounds, d)
  else
    (.ok (d.data.getD d.index 0), { d with index := d.index + 1 })

/-- `Decoder::uint16`: two `uint8` reads, big-endian. -/
def Decoder.uint16 (d : Decoder) : Except Error Nat × Decoder :=
  rtry d.uint8 fun b0 d0 =>
  rtry d0.uint8 fun b1 d1 =>
    (.ok (b0 <<< 8 ||| b1), d1)

/-- `Decoder::uint32`: four `uint8` reads, big-endian. -/
def Decoder.uint32 (d : Decoder) : Except Error Nat × Decoder :=
  rtry d.uint8 fun b0 d0 =>
  rtry d0.uint8 fun b1 d1 =>
  rtry d1.uint8 fun b2 d2 =>
  rtry d2.uint8 fun b3 d3 =>
    (.ok (b0 <<< 24 ||| b1 <<< 16 ||| b2 <<< 8 ||| b3), d3)

/-- `Decoder::int8`: `uint8` then transmute `u8 → i8`. -/
def Decoder.int8 (d : Decoder) : Except Error Int × Decoder :=
  rtry d.uint8 fun u d0 =>
    (.ok (if u < 128 then (u : Int) else (u : Int) - 256), d0)

/-- `Decoder::int16`: `uint16` then transmute `u16 → i16`. -/
def Decoder.int16 (d : Decoder) : Except Error Int × Decoder :=
  rtry d.uint16 fun u d0 =>
    (.ok (if u < 32768 then (u : Int) else (u : Int) - 65536), d0)

/-- `Decoder::int32`: `uint32` then transmute `u32 → i32`. -/
def Decoder.int32 (d : Decoder) : Except Error Int × Decoder :=
  rtry d.uint32 fun u d0 =>
    (.ok (if u < 2147483648 then (u : Int) else (u : Int) - 4294967296), d0)

/-- `Decoder::float32`: `uint32` then transmute to the float with that
bit pattern; the result is the bit pattern. -/
def Decoder.float32 (d : Decoder) : Except Error Nat × Decoder :=
  d.uint32

/-- `Decoder::float64`: two `uint32` reads reassembled into the 64-bit
IEEE-754 bit pattern. -/
def Decoder.float64 (d : Decoder) : Except Error Nat × Decoder :=
  rtry d.uint32 fun hi d0 =>
  rtry d0.uint32 fun lo d1 =>
    (.ok (hi <<< 32 ||| lo), d1)

/-- `Decoder::bool`: mirrors the Encoder's packing.  A continuing run
inspects the next bit of the already-consumed byte without touching
the cursor; a fresh run consumes one byte. -/
def Decoder.bool (d : Decoder) : Except Error Bool × Decoder :=
  if d.bool_index = d.index ∧ d.bool_shift < 7 then
    let shift := d.bool_shift + 1
    let bits := d.data.getD (d.index - 1) 0
    let bool_bit := 1 <<< shift
    (.ok (decide (bits &&& bool_bit = bool_bit)), { d with bool_shift := shift })
  else
    rtry d.uint8 fun bits d0 =>
      (.ok (decide (bits &&& 1 = 1)),
       { d0 with bool_index := d0.index, bool_shift := 0 })

/-- `Decoder::size`: variable-length size decoding driven by the
signature bits of the first byte. -/
def Decoder.size (d : Decoder) : Except Error Nat × Decoder :=
  rtry d.uint8 fun size0 d0 =>
    if size0 &&& 128 = 0 then
      (.ok size0, d0)
    else
      let sig := (size0 % 256) >>> 6
      let size := size0 &&& 63
      if sig = 2 then
        rtry d0.uint8 fun b1 d1 => (.ok (size <<< 8 ||| b1), d1)
      else
        rtry d0.uint8 fun b1 d1 =>
        rtry d1.uint8 fun b2 d2 =>
        rtry d2.uint8 fun b3 d3 =>
          (.ok (size <<< 24 ||| b1 <<< 16 ||| b2 <<< 8 ||| b3), d3)

/-- `Decoder::bytes`: size prefix, then a bounds-checked slice. -/
def Decoder.bytes (d : Decoder) : Except Error (List Nat) × Decoder :=
  rtry d.size fun size d0 =>
    if d0.index + size > d0.length then
      (.error Error.out_of_bounds, d0)
    else
      (.ok ((d0.data.drop d0.index).take size), { d0 with index := d0.index + size })

/-- UTF-8 validity of a byte sequence, exactly the condition under
which the Rust standard library's `String::from_utf8` succeeds
(shortest-form encodings of scalar values up to U+10FFFF, excluding
surrogates). -/
def validUtf8 : List Nat → Bool
  | [] => true
  | b :: rest =>
    if b < 0x80 then validUtf8 rest
    else if b < 0xC2 then false
    else if b < 0xE0 then
      match rest with
      | c1 :: rest1 =>
        decide (0x80 ≤ c1 ∧ c1 < 0xC0) && validUtf8 rest1
      | [] => false
    else if b < 0xF0 then
      match rest with
      | c1 :: c2 :: rest2 =>
        (if b = 0xE0 then decide (0xA0 ≤ c1 ∧ c1 < 0xC0)
         else if b = 0xED then decide (0x80 ≤ c1 ∧ c1 < 0xA0)
         else decide (0x80 ≤ c1 ∧ c1 < 0xC0)) &&
        decide (0x80 ≤ c2 ∧ c2 < 0xC0) && validUtf8 rest2
      | _ => false
    else if b < 0xF5 then
      match rest with
      | c1 :: c2 :: c3 :: rest3 =>
        (if b = 0xF0 then decide (0x90 ≤ c1 ∧ c1 < 0xC0)
         else if b = 0xF4 then decide (0x80 ≤ c1 ∧ c1 < 0x90)
         else decide (0x80 ≤ c1 ∧ c1 < 0xC0)) &&
        decide (0x80 ≤ c2 ∧ c2 < 0xC0) &&
        decide (0x80 ≤ c3 ∧ c3 < 0xC0) && validUtf8 rest3
      | _ => false
    else false

/-- `Decoder::string`: a `bytes` read followed by UTF-8 validation;
the value is the text's byte sequence. -/
def Decoder.string (d : Decoder) : Except Error (List Nat) × Decoder :=
  match d.bytes with
  | (.error e, d0) => (.error e, d0)
  | (.ok bs, d0) =>
    if validUtf8 bs then (.ok bs, d0)
    else (.error (Error.new ("Couldn't decode UTF-8 string")), d0)

/-- `Decoder::end`: end-of-stream check (`end` is reserved in Lean). -/
def Decoder.atEnd (d : Decoder) : Bool :=
  decide (d.index ≥ d.length)

/-- One read operation of the Decoder's public interface, for stating
properties over arbitrary sequences of reads. -/
inductive ReadOp : Type
  | uint8 | uint16 | uint32 | int8 | int16 | int32
  | float32 | float64 | bool | size | bytes | string
deriving DecidableEq, Repr

/-- The Decoder state after performing one read operation (the
returned value is discarded; mutation persists even on error). -/
def runOp (d : Decoder) : ReadOp → Decoder
  | .uint8 => d.uint8.2
  | .uint16 => d.uint16.2
  | .uint32 => d.uint32.2
  | .int8 => d.int8.2
  | .int16 => d.int16.2
  | .int32 => d.int32.2
  | .float32 => d.float32.2
  | .float64 => d.float64.2
  | .bool => d.bool.2
  | .size => d.size.2
  | .bytes => d.bytes.2
  | .string => d.string.2

/-- The Decoder state after a sequence of read operations. -/
def runOps (d : Decoder) (ops : List ReadOp) : Decoder :=
  ops.foldl runOp d

/-- One read step relates pre- and post-state: the cursor does not
decrease, stays within the (unchanged) buffer, and the buffer itself
is untouched. -/
def StepOk (d d' : Decoder) : Prop :=
  d.index ≤ d'.index ∧ d'.index ≤ d.length ∧ d'.length = d.length ∧ d'.data = d.data

deriving instance DecidableEq for Except

-- ## Bit-arithmetic toolkit

lemma lor_shl_eq (a b n : Nat) (h : b < 2 ^ n) : a <<< n ||| b = a * 2 ^ n + b := by
  rw [Nat.shiftLeft_eq, Nat.mul_comm, ← Nat.mul_add_lt_is_or h, Nat.mul_comm]

lemma shl_lor_distrib (x y n : Nat) : (x ||| y) <<< n = x <<< n ||| y <<< n := by
  apply Nat.eq_of_testBit_eq
  intro i
  simp [Nat.testBit_shiftLeft, Nat.testBit_or, Bool.and_or_distrib_left]

lemma lor_byte (a b : Nat) (hb : b < 256) : a <<< 8 ||| b = a * 256 + b := by
  have h := lor_shl_eq a b 8 (by norm_num; omega)
  norm_num at h
  exact h

lemma lor_bytes4 (a b c d : Nat) (hb : b < 256) (hc : c < 256) (hd : d < 256) :
    a <<< 24 ||| b <<< 16 ||| c <<< 8 ||| d = ((a * 256 + b) * 256 + c) * 256 + d := by
  have h1 : a <<< 24 ||| b <<< 16 = (a * 256 + b) <<< 16 := by
    rw [show (24 : Nat) = 8 + 16 from rfl, Nat.shiftLeft_add, ← shl_lor_distrib,
      lor_byte a b hb]
  have h2 : (a * 256 + b) <<< 16 ||| c <<< 8 = ((a * 256 + b) * 256 + c) <<< 8 := by
    rw [show (16 : Nat) = 8 + 8 from rfl, Nat.shiftLeft_add, ← shl_lor_distrib,
      lor_byte _ c hc]
  rw [h1, h2, lor_byte _ d hd]

lemma and_255_eq (v : Nat) : v &&& 255 = v % 256 := by
  have h := Nat.and_pow_two_sub_one_eq_mod v 8
  norm_num at h
  exact h

lemma and_63_eq (v : Nat) : v &&& 63 = v % 64 := by
  have h := Nat.and_pow_two_sub_one_eq_mod v 6
  norm_num at h
  exact h

lemma and_1_eq (v : Nat) : v &&& 1 = v % 2 := Nat.and_one_is_mod v

lemma and_u32_eq (v : Nat) : v &&& 4294967295 = v % 4294967296 := by
  have h := Nat.and_pow_two_sub_one_eq_mod v 32
  norm_num at h
  exact h

lemma and_128_eq (v : Nat) : v &&& 128 = v / 128 % 2 * 128 := by
  have h := Nat.and_two_pow v 7
  norm_num at h
  rw [h, Nat.toNat_testBit]

lemma shr_eq (v n : Nat) : v >>> n = v / 2 ^ n := Nat.shiftRight_eq_div_pow v n

-- ## Decoder at-lemmas

lemma uint8_at (i : Nat) (data : List Nat) (bi bs : Nat) (h : i < data.length) :
    Decoder.uint8 ⟨i, data.length, data, bi, bs⟩ =
      (.ok (data.getD i 0), ⟨i + 1, data.length, data, bi, bs⟩) := by
  unfold Decoder.uint8
  rw [if_neg (by simp; omega)]

lemma uint16_at (i : Nat) (data : List Nat) (bi bs : Nat) (h : i + 1 < data.length) :
    Decoder.uint16 ⟨i, data.length, data, bi, bs⟩ =
      (.ok ((data.getD i 0) <<< 8 ||| data.getD (i + 1) 0),
       ⟨i + 2, data.length, data, bi, bs⟩) := by
  unfold Decoder.uint16
  rw [uint8_at i data bi bs (by omega)]
  simp only [rtry]
  rw [uint8_at (i + 1) data bi bs (by omega)]

lemma uint32_at (i : Nat) (data : List Nat) (bi bs : Nat) (h : i + 3 < data.length) :
    Decoder.uint32 ⟨i, data.length, data, bi, bs⟩ =
      (.ok ((data.getD i 0) <<< 24 ||| (data.getD (i + 1) 0) <<< 16 |||
            (data.getD (i + 2) 0) <<< 8 ||| data.getD (i + 3) 0),
       ⟨i + 4, data.length, data, bi, bs⟩) := by
  unfold Decoder.uint32
  rw [uint8_at i data bi bs (by omega)]
  simp only [rtry]
  rw [uint8_at (i + 1) data bi bs (by omega)]
  simp only [rtry]
  rw [uint8_at (i + 2) data bi bs (by omega)]
  simp only [rtry]
  rw [uint8_at (i + 3) data bi bs (by omega)]

-- ## Round-trip lemmas, one per primitive type

lemma rt_uint8 (v : Nat) (hv : v < 256) :
    ((Decoder.new ((Encoder.new.uint8 v).data)).uint8).1 = Except.ok v := by
  have hdata : (Encoder.new.uint8 v).data = [v % 256] := by
    simp [Encoder.uint8, Encoder.new]
  rw [hdata, Decoder.new, uint8_at 0 _ _ _ (by simp)]
  simp [Nat.mod_eq_of_lt hv]

lemma u16_bytes_val (v : Nat) (hv : v < 65536) :
    (v >>> 8 % 256) <<< 8 ||| (v &&& 255) % 256 = v := by
  rw [lor_byte _ _ (Nat.mod_lt _ (by norm_num)), shr_eq, and_255_eq]
  norm_num
  omega

lemma rt_uint16 (v : Nat) (hv : v < 65536) :
    ((Decoder.new ((Encoder.new.uint16 v).data)).uint16).1 = Except.ok v := by
  have hdata : (Encoder.new.uint16 v).data = [v >>> 8 % 256, (v &&& 255) % 256] := by
    simp [Encoder.uint16, Encoder.uint8, Encoder.new]
  rw [hdata, Decoder.new, uint16_at 0 _ _ _ (by simp)]
  simp only [List.getD_cons_zero, List.getD_cons_succ]
  rw [u16_bytes_val v hv]

lemma u32_bytes_val (v : Nat) (hv : v < 4294967296) :
    (v >>> 24 % 256) <<< 24 ||| ((v >>> 16 &&& 255) % 256) <<< 16 |||
      ((v >>> 8 &&& 255) % 256) <<< 8 ||| (v &&& 255) % 256 = v := by
  rw [lor_bytes4 _ _ _ _ (Nat.mod_lt _ (by norm_num)) (Nat.mod_lt _ (by norm_num))
    (Nat.mod_lt _ (by norm_num))]
  simp only [shr_eq, and_255_eq]
  norm_num
  omega

lemma rt_uint32 (v : Nat) (hv : v < 4294967296) :
    ((Decoder.new ((Encoder.new.uint32 v).data)).uint32).1 = Except.ok v := by
  have hdata : (Encoder.new.uint32 v).data =
      [v >>> 24 % 256, (v >>> 16 &&& 255) % 256, (v >>> 8 &&& 255) % 256, (v &&& 255) % 256] := by
    simp [Encoder.uint32, Encoder.uint8, Encoder.new]
  rw [hdata, Decoder.new, uint32_at 0 _ _ _ (by simp)]
  simp only [List.getD_cons_zero, List.getD_cons_succ]
  rw [u32_bytes_val v hv]

lemma rt_int8 (v : Int) (hlo : -128 ≤ v) (hhi : v < 128) :
    ((Decoder.new ((Encoder.new.int8 v).data)).int8).1 = Except.ok v := by
  have hdata : (Encoder.new.int8 v).data = [(v % 256).toNat % 256] := by
    simp [Encoder.int8, Encoder.uint8, Encoder.new]
  rw [Decoder.int8, hdata, Decoder.new, uint8_at 0 _ _ _ (by simp)]
  simp only [rtry, List.getD_cons_zero]
  split <;> (simp only [Except.ok.injEq]; omega)

lemma rt_int16 (v : Int) (hlo : -32768 ≤ v) (hhi : v < 32768) :
    ((Decoder.new ((Encoder.new.int16 v).data)).int16).1 = Except.ok v := by
  have hu : ((v % 65536).toNat : Nat) < 65536 := by omega
  have hdata : (Encoder.new.int16 v).data =
      [(v % 65536).toNat >>> 8 % 256, ((v % 65536).toNat &&& 255) % 256] := by
    simp [Encoder.int16, Encoder.uint16, Encoder.uint8, Encoder.new]
  rw [Decoder.int16, hdata, Decoder.new, uint16_at 0 _ _ _ (by simp)]
  simp only [rtry, List.getD_cons_zero, List.getD_cons_succ]
  rw [u16_bytes_val _ hu]
  split <;> (simp only [Except.ok.injEq]; omega)

lemma rt_int32 (v : Int) (hlo : -2147483648 ≤ v) (hhi : v < 2147483648) :
    ((Decoder.new ((Encoder.new.int32 v).data)).int32).1 = Except.ok v := by
  have hu : ((v % 4294967296).toNat : Nat) < 4294967296 := by omega
  have hdata : (Encoder.new.int32 v).data =
      [(v % 4294967296).toNat >>> 24 % 256, ((v % 4294967296).toNat >>> 16 &&& 255) % 256,
       ((v % 4294967296).toNat >>> 8 &&& 255) % 256, ((v % 4294967296).toNat &&& 255) % 256] := by
    simp [Encoder.int32, Encoder.uint32, Encoder.uint8, Encoder.new]
  rw [Decoder.int32, hdata, Decoder.new, uint32_at 0 _ _ _ (by simp)]
  simp only [rtry, List.getD_cons_zero, List.getD_cons_succ]
  rw [u32_bytes_val _ hu]
  split <;> (simp only [Except.ok.injEq]; omega)

lemma rt_float32 (bits : Nat) (hv : bits < 4294967296) :
    ((Decoder.new ((Encoder.new.float32 bits).data)).float32).1 = Except.ok bits :=
  rt_uint32 bits hv

lemma rt_float64 (bits : Nat) (hv : bits < 18446744073709551616) :
    ((Decoder.new ((Encoder.new.float64 bits).data)).float64).1 = Except.ok bits := by
  have hhi : bits >>> 32 < 4294967296 := by rw [shr_eq]; norm_num; omega
  have hlo : bits &&& 4294967295 < 4294967296 := by rw [and_u32_eq]; omega
  have hdata : (Encoder.new.float64 bits).data =
      [(bits >>> 32) >>> 24 % 256, ((bits >>> 32) >>> 16 &&& 255) % 256,
       ((bits >>> 32) >>> 8 &&& 255) % 256, ((bits >>> 32) &&& 255) % 256,
       (bits &&& 4294967295) >>> 24 % 256, ((bits &&& 4294967295) >>> 16 &&& 255) % 256,
       ((bits &&& 4294967295) >>> 8 &&& 255) % 256, ((bits &&& 4294967295) &&& 255) % 256] := by
    simp [Encoder.float64, Encoder.uint32, Encoder.uint8, Encoder.new]
  have hfin : (bits >>> 32) <<< 32 ||| (bits &&& 4294967295) = bits := by
    rw [lor_shl_eq _ _ 32 (by norm_num; omega), shr_eq, and_u32_eq]
    norm_num
    omega
  rw [Decoder.float64, hdata, Decoder.new, uint32_at 0 _ _ _ (by simp)]
  simp only [rtry, List.getD_cons_zero, List.getD_cons_succ]
  rw [u32_bytes_val _ hhi, uint32_at 4 _ _ _ (by simp)]
  simp only [rtry, List.getD_cons_zero, List.getD_cons_succ]
  rw [u32_bytes_val _ hlo, hfin]

lemma rt_bool (b : Bool) :
    ((Decoder.new ((Encoder.new.bool b).data)).bool).1 = Except.ok b := by
  cases b <;> decide

-- ## Size encoding/decoding helpers

lemma size_enc1 (v : Nat) (hv : v < 128) : (Encoder.new.size v).data = [v] := by
  unfold Encoder.size
  rw [if_neg (by omega), if_pos (by omega)]
  simp [Encoder.uint8, Encoder.new, Nat.mod_eq_of_lt (by omega : v < 256)]

lemma size_enc2 (v : Nat) (hlo : 128 ≤ v) (hhi : v < 16384) :
    (Encoder.new.size v).data = [128 + v / 256, v % 256] := by
  have hw : v ||| 32768 = 32768 + v := by
    have h := lor_shl_eq 1 v 15 (by norm_num; omega)
    norm_num [Nat.shiftLeft_eq] at h
    rw [Nat.lor_comm]
    exact h
  unfold Encoder.size
  rw [if_neg (by omega), if_neg (by omega), if_pos (by omega)]
  simp only [Encoder.uint16, Encoder.uint8, Encoder.new, hw, shr_eq, and_255_eq,
    List.nil_append, List.cons_append, List.cons.injEq, List.append_nil]
  norm_num
  omega

lemma size_enc4 (v : Nat) (hlo : 16384 ≤ v) (hhi : v ≤ 1073741823) :
    (Encoder.new.size v).data =
      [192 + v / 16777216, v / 65536 % 256, v / 256 % 256, v % 256] := by
  have hw : v ||| 3221225472 = 3221225472 + v := by
    have h := lor_shl_eq 3 v 30 (by norm_num; omega)
    norm_num [Nat.shiftLeft_eq] at h
    rw [Nat.lor_comm]
    exact h
  unfold Encoder.size
  rw [if_neg (by omega), if_neg (by omega), if_neg (by omega)]
  simp only [Encoder.uint32, Encoder.uint8, Encoder.new, hw, shr_eq, and_255_eq,
    List.nil_append, List.cons_append, List.cons.injEq, List.append_nil]
  norm_num
  refine ⟨by omega, by omega, by omega, by omega⟩

lemma size_dec1 (b0 : Nat) (rest : List Nat) (bi bs : Nat) (h : b0 < 128) :
    Decoder.size ⟨0, (b0 :: rest).length, b0 :: rest, bi, bs⟩ =
      (.ok b0, ⟨1, (b0 :: rest).length, b0 :: rest, bi, bs⟩) := by
  unfold Decoder.size
  rw [show (b0 :: rest).length = (b0 :: rest).length from rfl]
  rw [uint8_at 0 (b0 :: rest) bi bs (by simp)]
  simp only [rtry, List.getD_cons_zero]
  rw [if_pos (by rw [and_128_eq]; omega)]

lemma size_dec2 (b0 b1 : Nat) (rest : List Nat) (bi bs : Nat)
    (hlo : 128 ≤ b0) (hhi : b0 < 192) :
    Decoder.size ⟨0, (b0 :: b1 :: rest).length, b0 :: b1 :: rest, bi, bs⟩ =
      (.ok ((b0 &&& 63) <<< 8 ||| b1), ⟨2, (b0 :: b1 :: rest).length, b0 :: b1 :: rest, bi, bs⟩) := by
  unfold Decoder.size
  rw [uint8_at 0 (b0 :: b1 :: rest) bi bs (by simp)]
  simp only [rtry, List.getD_cons_zero]
  rw [if_neg (by rw [and_128_eq]; omega),
    if_pos (by rw [shr_eq]; norm_num; omega),
    uint8_at 1 (b0 :: b1 :: rest) bi bs (by simp)]
  simp only [rtry, List.getD_cons_succ, List.getD_cons_zero]

lemma size_dec4 (b0 b1 b2 b3 : Nat) (rest : List Nat) (bi bs : Nat)
    (hlo : 192 ≤ b0) (hhi : b0 < 256) :
    Decoder.size ⟨0, (b0 :: b1 :: b2 :: b3 :: rest).length, b0 :: b1 :: b2 :: b3 :: rest, bi, bs⟩ =
      (.ok ((b0 &&& 63) <<< 24 ||| b1 <<< 16 ||| b2 <<< 8 ||| b3),
       ⟨4, (b0 :: b1 :: b2 :: b3 :: rest).length, b0 :: b1 :: b2 :: b3 :: rest, bi, bs⟩) := by
  unfold Decoder.size
  rw [uint8_at 0 _ bi bs (by simp)]
  simp only [rtry, List.getD_cons_zero]
  rw [if_neg (by rw [and_128_eq]; omega),
    if_neg (by rw [shr_eq]; norm_num; omega),
    uint8_at 1 _ bi bs (by simp)]
  simp only [rtry, List.getD_cons_succ, List.getD_cons_zero]
  rw [uint8_at 2 _ bi bs (by simp)]
  simp only [rtry, List.getD_cons_succ, List.getD_cons_zero]
  rw [uint8_at 3 _ bi bs (by simp)]
  simp only [rtry, List.getD_cons_succ, List.getD_cons_zero]

lemma size_prefix_rt (v : Nat) (hv : v ≤ 1073741823) (rest : List Nat) (bi bs : Nat) :
    Decoder.size ⟨0, ((Encoder.new.size v).data ++ rest).length,
        (Encoder.new.size v).data ++ rest, bi, bs⟩ =
      (.ok v, ⟨(Encoder.new.size v).data.length,
        ((Encoder.new.size v).data ++ rest).length,
        (Encoder.new.size v).data ++ rest, bi, bs⟩) := by
  rcases Nat.lt_or_ge v 128 with h1 | h1
  · rw [size_enc1 v h1]
    simp only [List.cons_append, List.nil_append]
    rw [size_dec1 v rest bi bs h1]
    simp
  rcases Nat.lt_or_ge v 16384 with h2 | h2
  · rw [size_enc2 v h1 h2]
    simp only [List.cons_append, List.nil_append]
    rw [size_dec2 _ _ rest bi bs (by omega) (by omega)]
    have hval : ((128 + v / 256) &&& 63) <<< 8 ||| v % 256 = v := by
      rw [and_63_eq, lor_byte _ _ (Nat.mod_lt _ (by norm_num))]
      omega
    rw [hval]
    simp
  · rw [size_enc4 v h2 hv]
    simp only [List.cons_append, List.nil_append]
    rw [size_dec4 _ _ _ _ rest bi bs (by omega) (by omega)]
    have hval : ((192 + v / 16777216) &&& 63) <<< 24 ||| (v / 65536 % 256) <<< 16 |||
        (v / 256 % 256) <<< 8 ||| v % 256 = v := by
      rw [and_63_eq, lor_bytes4 _ _ _ _ (Nat.mod_lt _ (by norm_num))
        (Nat.mod_lt _ (by norm_num)) (Nat.mod_lt _ (by norm_num))]
      omega
    rw [hval]
    simp

lemma rt_size (v : Nat) (hv : v ≤ 1073741823) :
    ((Decoder.new ((Encoder.new.size v).data)).size).1 = Except.ok v := by
  have h := size_prefix_rt v hv [] USIZE_MAX 0
  simp only [List.append_nil] at h
  rw [Decoder.new, h]

lemma rt_bytes (payload : List Nat) (h : payload.length ≤ 1073741823) :
    ((Decoder.new ((Encoder.new.bytes payload).data)).bytes).1 = Except.ok payload := by
  have hdata : (Encoder.new.bytes payload).data =
      (Encoder.new.size payload.length).data ++ payload := by
    unfold Encoder.bytes
    rw [if_neg (by omega)]
  rw [hdata, Decoder.new, Decoder.bytes,
    size_prefix_rt payload.length h payload USIZE_MAX 0]
  simp only [rtry]
  rw [if_neg (by simp)]
  simp [List.drop_left, List.take_length]

lemma rt_string (payload : List Nat) (h : payload.length ≤ 1073741823)
    (hvalid : validUtf8 payload = true) :
    ((Decoder.new ((Encoder.new.string payload).data)).string).1 = Except.ok payload := by
  have hdata : (Encoder.new.string payload).data =
      (Encoder.new.size payload.length).data ++ payload := by
    unfold Encoder.string
    rw [if_neg (by omega)]
  have hbytes : (Decoder.new ((Encoder.new.string payload).data)).bytes =
      (.ok payload, ⟨(Encoder.new.size payload.length).data.length + payload.length,
        ((Encoder.new.size payload.length).data ++ payload).length,
        (Encoder.new.size payload.length).data ++ payload, USIZE_MAX, 0⟩) := by
    rw [hdata, Decoder.new, Decoder.bytes,
      size_prefix_rt payload.length h payload USIZE_MAX 0]
    simp only [rtry]
    rw [if_neg (by simp)]
    simp [List.drop_left, List.take_length]
  rw [Decoder.string, hbytes]
  simp [hvalid]

-- ## Encoder error-state helpers

lemma finalize_of_no_error (e : Encoder) (h : e.last_error = none) :
    e.finalize = .ok e.data := by
  unfold Encoder.finalize
  rw [h]

lemma uint8_err (e : Encoder) (v : Nat) : (e.uint8 v).last_error = e.last_error := rfl

lemma uint16_err (e : Encoder) (v : Nat) : (e.uint16 v).last_error = e.last_error := rfl

lemma uint32_err (e : Encoder) (v : Nat) : (e.uint32 v).last_error = e.last_error := rfl

lemma bool_err (e : Encoder) (b : Bool) : (e.bool b).last_error = e.last_error := by
  by_cases h : e.bool_index = e.data.length ∧ e.bool_shift < 7
  · simp [Encoder.bool, h]
  · simp [Encoder.bool, h, Encoder.uint8]

lemma size_err (e : Encoder) (v : Nat) (hv : v ≤ 1073741823) :
    (e.size v).last_error = e.last_error := by
  unfold Encoder.size
  rw [if_neg (by omega)]
  split <;> [rfl; split <;> rfl]

lemma bytes_err (e : Encoder) (payload : List Nat) (h : payload.length ≤ 1073741823) :
    (e.bytes payload).last_error = e.last_error := by
  unfold Encoder.bytes
  rw [if_neg (by omega)]
  simp only []
  rw [size_err e payload.length h]

lemma string_err (e : Encoder) (payload : List Nat) (h : payload.length ≤ 1073741823) :
    (e.string payload).last_error = e.last_error := by
  unfold Encoder.string
  rw [if_neg (by omega)]
  simp only []
  rw [size_err e payload.length h]

-- tests for decide-based claims


lemma bool_fresh (e : Encoder) (b : Bool)
    (h : ¬(e.bool_index = e.data.length ∧ e.bool_shift < 7)) :
    e.bool b = { data := e.data ++ [(if b then 1 else 0)],
                 bool_index := e.data.length + 1, bool_shift := 0,
                 last_error := e.last_error } := by
  simp only [Encoder.bool, Encoder.uint8]
  rw [if_neg h]
  cases b <;> rfl

lemma bool_cont (e : Encoder) (b : Bool)
    (h1 : e.bool_index = e.data.length) (h2 : e.bool_shift < 7) :
    e.bool b = { e with
                 bool_shift := e.bool_shift + 1
                 data := e.data.set (e.data.length - 1)
                   ((e.data.getD (e.data.length - 1) 0) |||
                    ((if b then 1 else 0) <<< (e.bool_shift + 1))) } := by
  simp only [Encoder.bool]
  rw [if_pos ⟨h1, h2⟩]

lemma pack4_eq (b1 b2 b3 b4 : Bool) :
    (if b1 then 1 else 0) ||| (if b2 then (1 : Nat) else 0) <<< 1 |||
      (if b3 then (1 : Nat) else 0) <<< 2 ||| (if b4 then (1 : Nat) else 0) <<< 3 =
    (if b1 then 1 else 0) + 2 * (if b2 then 1 else 0) + 4 * (if b3 then 1 else 0) +
      8 * (if b4 then 1 else 0) := by
  cases b1 <;> cases b2 <;> cases b3 <;> cases b4 <;> decide

lemma bool_interleave_pack : ∀ b1 b2 b3 b4 b5 b6 b7 b8 : Bool, ∀ x : Nat,
    (((((((((Encoder.new.bool b1).bool b2).bool b3).bool b4).uint8 x).bool
        b5).bool b6).bool b7).bool b8).data =
      [(if b1 then 1 else 0) + 2 * (if b2 then 1 else 0) + 4 * (if b3 then 1 else 0) +
        8 * (if b4 then 1 else 0),
       x % 256,
       (if b5 then 1 else 0) + 2 * (if b6 then 1 else 0) + 4 * (if b7 then 1 else 0) +
        8 * (if b8 then 1 else 0)] := by
  intro b1 b2 b3 b4 b5 b6 b7 b8 x
  rw [show Encoder.new = ⟨[], USIZE_MAX, 0, none⟩ from rfl]
  rw [bool_fresh _ b1 (by simp [USIZE_MAX])]
  norm_num
  rw [bool_cont _ b2 (by simp) (by norm_num)]
  norm_num [List.set_cons_zero, List.getD_cons_zero]
  rw [bool_cont _ b3 (by simp) (by norm_num)]
  norm_num [List.set_cons_zero, List.getD_cons_zero]
  rw [bool_cont _ b4 (by simp) (by norm_num)]
  norm_num [List.set_cons_zero, List.getD_cons_zero]
  rw [show ∀ e : Encoder, ∀ v, e.uint8 v =
      ⟨e.data ++ [v % 256], e.bool_index, e.bool_shift, e.last_error⟩ from fun _ _ => rfl]
  norm_num
  rw [bool_fresh _ b5 (by simp)]
  norm_num
  rw [bool_cont _ b6 (by simp) (by norm_num)]
  norm_num [List.set_cons_succ, List.set_cons_zero, List.getD_cons_succ, List.getD_cons_zero]
  rw [bool_cont _ b7 (by simp) (by norm_num)]
  norm_num [List.set_cons_succ, List.set_cons_zero, List.getD_cons_succ, List.getD_cons_zero]
  rw [bool_cont _ b8 (by simp) (by norm_num)]
  norm_num [List.set_cons_succ, List.set_cons_zero, List.getD_cons_succ, List.getD_cons_zero]
  rw [pack4_eq b1 b2 b3 b4, pack4_eq b5 b6 b7 b8]
  constructor <;> (cases b1 <;> cases b2 <;> cases b3 <;> cases b4 <;> cases b5 <;>
    cases b6 <;> cases b7 <;> cases b8 <;> rfl)


-- ## Cursor invariants


lemma StepOk.rfl (d : Decoder) (h : d.index ≤ d.length) : StepOk d d :=
  ⟨Nat.le_refl _, h, Eq.refl _, Eq.refl _⟩

lemma StepOk.trans {d1 d2 d3 : Decoder} (a : StepOk d1 d2) (b : StepOk d2 d3) :
    StepOk d1 d3 := by
  obtain ⟨a1, a2, a3, a4⟩ := a
  obtain ⟨b1, b2, b3, b4⟩ := b
  exact ⟨Nat.le_trans a1 b1, by omega, by omega, by rw [b4, a4]⟩

lemma StepOk.le {d d' : Decoder} (s : StepOk d d') : d'.index ≤ d'.length := by
  obtain ⟨_, s2, s3, _⟩ := s
  omega

lemma uint8_step (d : Decoder) (h : d.index ≤ d.length) : StepOk d (d.uint8).2 := by
  unfold Decoder.uint8
  split
  · exact StepOk.rfl d h
  · next hlt =>
      exact ⟨Nat.le_succ _, by show d.index + 1 ≤ d.length; omega, Eq.refl _, Eq.refl _⟩

lemma rtry_step {α β : Type} (r : Except Error α × Decoder)
    (k : α → Decoder → Except Error β × Decoder) (d : Decoder)
    (hr : StepOk d r.2) (hk : ∀ v, StepOk r.2 (k v r.2).2) :
    StepOk d (rtry r k).2 := by
  rcases r with ⟨r1, d1⟩
  cases r1
  · exact hr
  · exact StepOk.trans hr (hk _)

lemma uint16_step (d : Decoder) (h : d.index ≤ d.length) : StepOk d (d.uint16).2 := by
  unfold Decoder.uint16
  refine rtry_step _ _ _ (uint8_step d h) (fun v => ?_)
  refine rtry_step _ _ _ (uint8_step _ (uint8_step d h).le) (fun v2 => ?_)
  exact StepOk.rfl _ (uint8_step _ (uint8_step d h).le).le

lemma uint32_step (d : Decoder) (h : d.index ≤ d.length) : StepOk d (d.uint32).2 := by
  unfold Decoder.uint32
  refine rtry_step _ _ _ (uint8_step d h) (fun v => ?_)
  refine rtry_step _ _ _ (uint8_step _ (uint8_step d h).le) (fun v2 => ?_)
  refine rtry_step _ _ _
    (uint8_step _ (uint8_step _ (uint8_step d h).le).le) (fun v3 => ?_)
  refine rtry_step _ _ _
    (uint8_step _ (uint8_step _ (uint8_step _ (uint8_step d h).le).le).le) (fun v4 => ?_)
  exact StepOk.rfl _ (uint8_step _ (uint8_step _ (uint8_step _ (uint8_step d h).le).le).le).le

lemma int8_step (d : Decoder) (h : d.index ≤ d.length) : StepOk d (d.int8).2 := by
  unfold Decoder.int8
  exact rtry_step _ _ _ (uint8_step d h) (fun v => StepOk.rfl _ (uint8_step d h).le)

lemma int16_step (d : Decoder) (h : d.index ≤ d.length) : StepOk d (d.int16).2 := by
  unfold Decoder.int16
  exact rtry_step _ _ _ (uint16_step d h) (fun v => StepOk.rfl _ (uint16_step d h).le)

lemma int32_step (d : Decoder) (h : d.index ≤ d.length) : StepOk d (d.int32).2 := by
  unfold Decoder.int32
  exact rtry_step _ _ _ (uint32_step d h) (fun v => StepOk.rfl _ (uint32_step d h).le)

lemma float32_step (d : Decoder) (h : d.index ≤ d.length) : StepOk d (d.float32).2 :=
  uint32_step d h

lemma float64_step (d : Decoder) (h : d.index ≤ d.length) : StepOk d (d.float64).2 := by
  unfold Decoder.float64
  refine rtry_step _ _ _ (uint32_step d h) (fun v => ?_)
  refine rtry_step _ _ _ (uint32_step _ (uint32_step d h).le) (fun v2 => ?_)
  exact StepOk.rfl _ (uint32_step _ (uint32_step d h).le).le

lemma bool_step (d : Decoder) (h : d.index ≤ d.length) : StepOk d (d.bool).2 := by
  unfold Decoder.bool
  split
  · exact ⟨Nat.le_refl _, h, Eq.refl _, Eq.refl _⟩
  · refine rtry_step _ _ _ (uint8_step d h) (fun v => ?_)
    exact ⟨Nat.le_refl _, (uint8_step d h).le, Eq.refl _, Eq.refl _⟩

lemma size_step (d : Decoder) (h : d.index ≤ d.length) : StepOk d (d.size).2 := by
  simp only [Decoder.size]
  refine rtry_step _ _ _ (uint8_step d h) (fun v => ?_)
  have h1 := (uint8_step d h).le
  split
  · exact StepOk.rfl _ h1
  · split
    · refine rtry_step _ _ _ (uint8_step _ h1) (fun v2 => ?_)
      exact StepOk.rfl _ (uint8_step _ h1).le
    · refine rtry_step _ _ _ (uint8_step _ h1) (fun v2 => ?_)
      refine rtry_step _ _ _ (uint8_step _ (uint8_step _ h1).le) (fun v3 => ?_)
      refine rtry_step _ _ _
        (uint8_step _ (uint8_step _ (uint8_step _ h1).le).le) (fun v4 => ?_)
      exact StepOk.rfl _ (uint8_step _ (uint8_step _ (uint8_step _ h1).le).le).le

lemma bytes_step (d : Decoder) (h : d.index ≤ d.length) : StepOk d (d.bytes).2 := by
  unfold Decoder.bytes
  refine rtry_step _ _ _ (size_step d h) (fun v => ?_)
  have h1 := (size_step d h).le
  split
  · next hgt => exact StepOk.rfl _ h1
  · next hle =>
      exact ⟨Nat.le_add_right _ _, Nat.le_of_not_lt hle, Eq.refl _, Eq.refl _⟩

lemma string_step (d : Decoder) (h : d.index ≤ d.length) : StepOk d (d.string).2 := by
  have hb := bytes_step d h
  unfold Decoder.string
  rcases hbs : d.bytes with ⟨r, d1⟩
  rw [hbs] at hb
  cases r
  · exact hb
  · simp only []
    split <;> exact hb

lemma runOp_step (d : Decoder) (op : ReadOp) (h : d.index ≤ d.length) :
    StepOk d (runOp d op) := by
  cases op
  case uint8 => exact uint8_step d h
  case uint16 => exact uint16_step d h
  case uint32 => exact uint32_step d h
  case int8 => exact int8_step d h
  case int16 => exact int16_step d h
  case int32 => exact int32_step d h
  case float32 => exact float32_step d h
  case float64 => exact float64_step d h
  case bool => exact bool_step d h
  case size => exact size_step d h
  case bytes => exact bytes_step d h
  case string => exact string_step d h

lemma runOps_step (ops : List ReadOp) (d : Decoder) (h : d.index ≤ d.length) :
    StepOk d (runOps d ops) := by
  induction ops generalizing d with
  | nil => exact StepOk.rfl d h
  | cons op ops ih =>
    have h1 := runOp_step d op h
    have h2 := ih (runOp d op) h1.le
    exact StepOk.trans h1 h2

-- ## Decoder boolean-read case analysis

lemma bool_dec_cont (d : Decoder) (h1 : d.bool_index = d.index) (h2 : d.bool_shift < 7) :
    d.bool = (.ok (decide (d.data.getD (d.index - 1) 0 &&& 1 <<< (d.bool_shift + 1) =
        1 <<< (d.bool_shift + 1))),
      { d with bool_shift := d.bool_shift + 1 }) := by
  simp only [Decoder.bool]
  rw [if_pos ⟨h1, h2⟩]

lemma bool_dec_fresh_err (d : Decoder)
    (hc : ¬(d.bool_index = d.index ∧ d.bool_shift < 7)) (hl : d.length ≤ d.index) :
    d.bool = (.error Error.out_of_bounds, d) := by
  have h8 : d.uint8 = (.error Error.out_of_bounds, d) := by
    unfold Decoder.uint8
    rw [if_pos hl]
  simp only [Decoder.bool]
  rw [if_neg hc, h8]
  simp only [rtry]

lemma bool_dec_fresh_ok (d : Decoder)
    (hc : ¬(d.bool_index = d.index ∧ d.bool_shift < 7)) (hl : d.index < d.length) :
    d.bool = (.ok (decide (d.data.getD d.index 0 &&& 1 = 1)),
      ⟨d.index + 1, d.length, d.data, d.index + 1, 0⟩) := by
  have h8 : d.uint8 = (.ok (d.data.getD d.index 0),
      ⟨d.index + 1, d.length, d.data, d.bool_index, d.bool_shift⟩) := by
    unfold Decoder.uint8
    rw [if_neg (by omega)]
  simp only [Decoder.bool]
  rw [if_neg hc, h8]
  simp only [rtry]

-- ## Claim theorems

/-- Claim C1: for every supported value of each primitive type (u8, u16,
u32, i8, i16, i32, f32, f64, bool, size up to 1073741823, byte sequence,
UTF-8 text), encoding it with a fresh Encoder, finalizing, and reading it
back through a Decoder over the produced bytes returns exactly the value,
bit-exact for floats (which are transported as their IEEE-754 bit
patterns, so negative zero and NaN payloads are preserved). -/
theorem C1_primitive_roundtrip :
    (∀ v : Nat, v < 256 →
      (Encoder.new.uint8 v).finalize = .ok ((Encoder.new.uint8 v).data) ∧
      ((Decoder.new ((Encoder.new.uint8 v).data)).uint8).1 = .ok v) ∧
    (∀ v : Nat, v < 65536 →
      (Encoder.new.uint16 v).finalize = .ok ((Encoder.new.uint16 v).data) ∧
      ((Decoder.new ((Encoder.new.uint16 v).data)).uint16).1 = .ok v) ∧
    (∀ v : Nat, v < 4294967296 →
      (Encoder.new.uint32 v).finalize = .ok ((Encoder.new.uint32 v).data) ∧
      ((Decoder.new ((Encoder.new.uint32 v).data)).uint32).1 = .ok v) ∧
    (∀ v : Int, -128 ≤ v → v < 128 →
      (Encoder.new.int8 v).finalize = .ok ((Encoder.new.int8 v).data) ∧
      ((Decoder.new ((Encoder.new.int8 v).data)).int8).1 = .ok v) ∧
    (∀ v : Int, -32768 ≤ v → v < 32768 →
      (Encoder.new.int16 v).finalize = .ok ((Encoder.new.int16 v).data) ∧
      ((Decoder.new ((Encoder.new.int16 v).data)).int16).1 = .ok v) ∧
    (∀ v : Int, -2147483648 ≤ v → v < 2147483648 →
      (Encoder.new.int32 v).finalize = .ok ((Encoder.new.int32 v).data) ∧
      ((Decoder.new ((Encoder.new.int32 v).data)).int32).1 = .ok v) ∧
    (∀ bits : Nat, bits < 4294967296 →
      (Encoder.new.float32 bits).finalize = .ok ((Encoder.new.float32 bits).data) ∧
      ((Decoder.new ((Encoder.new.float32 bits).data)).float32).1 = .ok bits) ∧
    (∀ bits : Nat, bits < 18446744073709551616 →
      (Encoder.new.float64 bits).finalize = .ok ((Encoder.new.float64 bits).data) ∧
      ((Decoder.new ((Encoder.new.float64 bits).data)).float64).1 = .ok bits) ∧
    (∀ b : Bool,
      (Encoder.new.bool b).finalize = .ok ((Encoder.new.bool b).data) ∧
      ((Decoder.new ((Encoder.new.bool b).data)).bool).1 = .ok b) ∧
    (∀ v : Nat, v ≤ 1073741823 →
      (Encoder.new.size v).finalize = .ok ((Encoder.new.size v).data) ∧
      ((Decoder.new ((Encoder.new.size v).data)).size).1 = .ok v) ∧
    (∀ payload : List Nat, payload.length ≤ 1073741823 →
      (Encoder.new.bytes payload).finalize = .ok ((Encoder.new.bytes payload).data) ∧
      ((Decoder.new ((Encoder.new.bytes payload).data)).bytes).1 = .ok payload) ∧
    (∀ payload : List Nat, payload.length ≤ 1073741823 → validUtf8 payload = true →
      (Encoder.new.string payload).finalize = .ok ((Encoder.new.string payload).data) ∧
      ((Decoder.new ((Encoder.new.string payload).data)).string).1 = .ok payload) := by
  refine ⟨fun v hv => ⟨finalize_of_no_error _ rfl, rt_uint8 v hv⟩,
    fun v hv => ⟨finalize_of_no_error _ rfl, rt_uint16 v hv⟩,
    fun v hv => ⟨finalize_of_no_error _ rfl, rt_uint32 v hv⟩,
    fun v h1 h2 => ⟨finalize_of_no_error _ rfl, rt_int8 v h1 h2⟩,
    fun v h1 h2 => ⟨finalize_of_no_error _ rfl, rt_int16 v h1 h2⟩,
    fun v h1 h2 => ⟨finalize_of_no_error _ rfl, rt_int32 v h1 h2⟩,
    fun b hb => ⟨finalize_of_no_error _ rfl, rt_float32 b hb⟩,
    fun b hb => ⟨finalize_of_no_error _ rfl, rt_float64 b hb⟩,
    fun b => ⟨finalize_of_no_error _ (by rw [bool_err]; rfl), rt_bool b⟩,
    fun v hv => ⟨finalize_of_no_error _ (by rw [size_err _ _ hv]; rfl), rt_size v hv⟩,
    fun p hp => ⟨finalize_of_no_error _ (by rw [bytes_err _ _ hp]; rfl), rt_bytes p hp⟩,
    fun p hp hu => ⟨finalize_of_no_error _ (by rw [string_err _ _ hp]; rfl), rt_string p hp hu⟩⟩

/-- Witness for C1 at concrete inputs: u8 5, u16 43981, u32 3735928559,
i8 -5, i16 -300, i32 -70000, f32 bit pattern 2143289344 (a NaN), f64 bit
pattern 18444492273895866369 (negative NaN with payload), bool true, size
16384, bytes [1, 2, 3], text "ok" ([111, 107]). -/
theorem C1_primitive_roundtrip_witness :
    ((5 : Nat) < 256 ∧
      ((Decoder.new ((Encoder.new.uint8 5).data)).uint8).1 = .ok 5) ∧
    ((43981 : Nat) < 65536 ∧
      ((Decoder.new ((Encoder.new.uint16 43981).data)).uint16).1 = .ok 43981) ∧
    ((3735928559 : Nat) < 4294967296 ∧
      ((Decoder.new ((Encoder.new.uint32 3735928559).data)).uint32).1 = .ok 3735928559) ∧
    (((-5 : Int) < 128 ∧ (-128 : Int) ≤ -5) ∧
      ((Decoder.new ((Encoder.new.int8 (-5)).data)).int8).1 = .ok (-5)) ∧
    (((Decoder.new ((Encoder.new.int16 (-300)).data)).int16).1 = .ok (-300)) ∧
    (((Decoder.new ((Encoder.new.int32 (-70000)).data)).int32).1 = .ok (-70000)) ∧
    (((Decoder.new ((Encoder.new.float32 2143289344).data)).float32).1 = .ok 2143289344) ∧
    (((Decoder.new ((Encoder.new.float64 18444492273895866369).data)).float64).1 =
      .ok 18444492273895866369) ∧
    (((Decoder.new ((Encoder.new.bool true).data)).bool).1 = .ok true) ∧
    (((Decoder.new ((Encoder.new.size 16384).data)).size).1 = .ok 16384) ∧
    (((Decoder.new ((Encoder.new.bytes [1, 2, 3]).data)).bytes).1 = .ok [1, 2, 3]) ∧
    (validUtf8 [111, 107] = true ∧
      ((Decoder.new ((Encoder.new.string [111, 107]).data)).string).1 = .ok [111, 107]) :=
  ⟨⟨by decide, (C1_primitive_roundtrip.1 5 (by decide)).2⟩,
   ⟨by decide, (C1_primitive_roundtrip.2.1 43981 (by decide)).2⟩,
   ⟨by decide, (C1_primitive_roundtrip.2.2.1 3735928559 (by decide)).2⟩,
   ⟨⟨by decide, by decide⟩, (C1_primitive_roundtrip.2.2.2.1 (-5) (by decide) (by decide)).2⟩,
   (C1_primitive_roundtrip.2.2.2.2.1 (-300) (by decide) (by decide)).2,
   (C1_primitive_roundtrip.2.2.2.2.2.1 (-70000) (by decide) (by decide)).2,
   (C1_primitive_roundtrip.2.2.2.2.2.2.1 2143289344 (by decide)).2,
   (C1_primitive_roundtrip.2.2.2.2.2.2.2.1 18444492273895866369 (by decide)).2,
   (C1_primitive_roundtrip.2.2.2.2.2.2.2.2.1 true).2,
   (C1_primitive_roundtrip.2.2.2.2.2.2.2.2.2.1 16384 (by decide)).2,
   (C1_primitive_roundtrip.2.2.2.2.2.2.2.2.2.2.1 [1, 2, 3] (by decide)).2,
   ⟨by decide, (C1_primitive_roundtrip.2.2.2.2.2.2.2.2.2.2.2 [111, 107]
     (by decide) (by decide)).2⟩⟩

/-- Claim C2: encoding the size values 0, 127, 128, 16383, 16384 and
1073741823 appends exactly 1, 1, 2, 2, 4 and 4 bytes respectively, and
each decodes back to itself; encoding 1073741824 or any larger value
appends no bytes and makes finalization return the size encodability
error. -/
theorem C2_size_boundaries :
    ((Encoder.new.size 0).data.length = 1 ∧
      ((Decoder.new ((Encoder.new.size 0).data)).size).1 = .ok 0) ∧
    ((Encoder.new.size 127).data.length = 1 ∧
      ((Decoder.new ((Encoder.new.size 127).data)).size).1 = .ok 127) ∧
    ((Encoder.new.size 128).data.length = 2 ∧
      ((Decoder.new ((Encoder.new.size 128).data)).size).1 = .ok 128) ∧
    ((Encoder.new.size 16383).data.length = 2 ∧
      ((Decoder.new ((Encoder.new.size 16383).data)).size).1 = .ok 16383) ∧
    ((Encoder.new.size 16384).data.length = 4 ∧
      ((Decoder.new ((Encoder.new.size 16384).data)).size).1 = .ok 16384) ∧
    ((Encoder.new.size 1073741823).data.length = 4 ∧
      ((Decoder.new ((Encoder.new.size 1073741823).data)).size).1 = .ok 1073741823) ∧
    (∀ n : Nat, 1073741823 < n →
      (Encoder.new.size n).data = [] ∧
      (Encoder.new.size n).finalize = .error (Error.new ("[size] value is too large"))) := by
  refine ⟨by decide, by decide, by decide, by decide, by decide, by decide, fun n hn => ?_⟩
  unfold Encoder.size
  rw [if_pos hn]
  exact ⟨rfl, rfl⟩

/-- Witness for C2's oversize clause at the concrete value 1073741824. -/
theorem C2_size_boundaries_witness :
    1073741823 < 1073741824 ∧
    (Encoder.new.size 1073741824).data = [] ∧
    (Encoder.new.size 1073741824).finalize =
      .error (Error.new ("[size] value is too large")) :=
  ⟨by decide, C2_size_boundaries.2.2.2.2.2.2 1073741824 (by decide)⟩

/-- Claim C3: eight consecutive booleans pack into exactly one byte, the
first boolean in bit 0 and each later one in the next bit; a non-boolean
write between the 4th and 5th of eight booleans yields two separate
packed bytes of 4 boolean bits each around the interposed byte; a 9th
consecutive boolean starts a new byte. -/
theorem C3_bool_packing :
    (∀ b1 b2 b3 b4 b5 b6 b7 b8 : Bool,
      ((((((((Encoder.new.bool b1).bool b2).bool b3).bool b4).bool b5).bool
          b6).bool b7).bool b8).data =
        [(if b1 then 1 else 0) + 2 * (if b2 then 1 else 0) + 4 * (if b3 then 1 else 0) +
          8 * (if b4 then 1 else 0) + 16 * (if b5 then 1 else 0) +
          32 * (if b6 then 1 else 0) + 64 * (if b7 then 1 else 0) +
          128 * (if b8 then 1 else 0)]) ∧
    (∀ b1 b2 b3 b4 b5 b6 b7 b8 : Bool, ∀ x : Nat,
      (((((((((Encoder.new.bool b1).bool b2).bool b3).bool b4).uint8 x).bool
          b5).bool b6).bool b7).bool b8).data =
        [(if b1 then 1 else 0) + 2 * (if b2 then 1 else 0) + 4 * (if b3 then 1 else 0) +
          8 * (if b4 then 1 else 0),
         x % 256,
         (if b5 then 1 else 0) + 2 * (if b6 then 1 else 0) + 4 * (if b7 then 1 else 0) +
          8 * (if b8 then 1 else 0)]) ∧
    (∀ b1 b2 b3 b4 b5 b6 b7 b8 b9 : Bool,
      (((((((((Encoder.new.bool b1).bool b2).bool b3).bool b4).bool b5).bool
          b6).bool b7).bool b8).bool b9).data =
        [(if b1 then 1 else 0) + 2 * (if b2 then 1 else 0) + 4 * (if b3 then 1 else 0) +
          8 * (if b4 then 1 else 0) + 16 * (if b5 then 1 else 0) +
          32 * (if b6 then 1 else 0) + 64 * (if b7 then 1 else 0) +
          128 * (if b8 then 1 else 0),
         if b9 then 1 else 0]) :=
  ⟨by decide, bool_interleave_pack, by decide⟩

/-- Claim C4 counterexample: an oversize `bytes` write defers the
"[bytes] is too long" error, but a later oversize `size` write replaces
it, so finalization reports the error from the LAST oversize write, not
the first as the claim states. -/
theorem C4_first_error_counterexample :
    ((Encoder.new.bytes (List.replicate 1073741824 0)).size 1073741824).finalize =
      .error (Error.new ("[size] value is too large")) ∧
    Error.new ("[size] value is too large") ≠ Error.new ("[bytes] is too long") := by
  constructor
  · have h1 : Encoder.new.bytes (List.replicate 1073741824 0) =
        Encoder.mk [] USIZE_MAX 0 (some (Error.new ("[bytes] is too long"))) := by
      unfold Encoder.bytes
      rw [if_pos (by rw [List.length_replicate]; norm_num)]
      rfl
    rw [h1]
    unfold Encoder.size
    rw [if_pos (by norm_num)]
    rfl
  · decide

/-- Claim C4 amended: an oversize write always stores its own deferred
error, replacing any earlier one (last error wins), and finalization
reports whatever error is stored. -/
theorem C4_last_error_wins :
    (∀ (e : Encoder) (n : Nat), 1073741823 < n →
      (e.size n).last_error = some (Error.new ("[size] value is too large"))) ∧
    (∀ (e : Encoder) (payload : List Nat), 1073741823 < payload.length →
      (e.bytes payload).last_error = some (Error.new ("[bytes] is too long"))) ∧
    (∀ (e : Encoder) (payload : List Nat), 1073741823 < payload.length →
      (e.string payload).last_error = some (Error.new ("[string] is too long"))) ∧
    (∀ (e : Encoder) (err : Error), e.last_error = some err → e.finalize = .error err) := by
  refine ⟨fun e n hn => ?_, fun e p hp => ?_, fun e p hp => ?_, fun e err h => ?_⟩
  · unfold Encoder.size
    rw [if_pos hn]
  · unfold Encoder.bytes
    rw [if_pos hp]
  · unfold Encoder.string
    rw [if_pos hp]
  · unfold Encoder.finalize
    rw [h]

/-- Witness for C4's amended claim: a size write over an Encoder that
already holds the bytes error replaces it, and finalization reports the
stored error. -/
theorem C4_last_error_wins_witness :
    1073741823 < 1073741824 ∧
    ((Encoder.mk [] 0 0 (some (Error.new ("[bytes] is too long")))).size
      1073741824).last_error = some (Error.new ("[size] value is too large")) ∧
    (Encoder.mk [5] 0 0 (some (Error.new ("[size] value is too large")))).finalize =
      .error (Error.new ("[size] value is too large")) :=
  ⟨by decide,
   C4_last_error_wins.1 (Encoder.mk [] 0 0 (some (Error.new ("[bytes] is too long"))))
     1073741824 (by decide),
   C4_last_error_wins.2.2.2 (Encoder.mk [5] 0 0
     (some (Error.new ("[size] value is too large")))) _ (Eq.refl _)⟩

/-- Claim C5 counterexample: a `uint32` read on a 2-byte buffer would
advance the cursor past the buffer length; it does fail with the bounds
error, but it mutates the cursor (from 0 to 2), contradicting the
claim's "without mutating the cursor". -/
theorem C5_no_mutation_counterexample :
    ((Decoder.new [1, 2]).uint32).1 = .error Error.out_of_bounds ∧
    (Decoder.new [1, 2]).index = 0 ∧
    ((Decoder.new [1, 2]).uint32).2.index = 2 := by decide

/-- Claim C5 amended: over any sequence of read operations the cursor is
monotonically non-decreasing and never exceeds the (unchanged) buffer
length; a single-byte read that would pass the end fails with the bounds
error without mutating the state, while composed multi-byte reads may
leave the cursor advanced by their successful sub-reads. -/
theorem C5_cursor_invariant :
    (∀ (d : Decoder) (ops : List ReadOp), d.index ≤ d.length →
      d.index ≤ (runOps d ops).index ∧ (runOps d ops).index ≤ d.length ∧
      (runOps d ops).length = d.length ∧ (runOps d ops).data = d.data) ∧
    (∀ d : Decoder, d.length ≤ d.index →
      d.uint8 = (.error Error.out_of_bounds, d)) := by
  constructor
  · intro d ops h
    exact runOps_step ops d h
  · intro d h
    unfold Decoder.uint8
    rw [if_pos h]

/-- Witness for C5 at a 1-byte buffer: one uint8 read advances the
cursor from 0 to within bounds, and a fully-consumed decoder's uint8
read fails without mutation. -/
theorem C5_cursor_invariant_witness :
    (Decoder.new [7]).index ≤ (Decoder.new [7]).length ∧
    ((Decoder.new [7]).index ≤ (runOps (Decoder.new [7]) [ReadOp.uint8]).index ∧
      (runOps (Decoder.new [7]) [ReadOp.uint8]).index ≤ (Decoder.new [7]).length ∧
      (runOps (Decoder.new [7]) [ReadOp.uint8]).length = (Decoder.new [7]).length ∧
      (runOps (Decoder.new [7]) [ReadOp.uint8]).data = (Decoder.new [7]).data) ∧
    (Decoder.mk 1 1 [7] 0 0).uint8 = (.error Error.out_of_bounds, Decoder.mk 1 1 [7] 0 0) :=
  ⟨by decide,
   C5_cursor_invariant.1 (Decoder.new [7]) [ReadOp.uint8] (by decide),
   C5_cursor_invariant.2 (Decoder.mk 1 1 [7] 0 0) (by decide)⟩

/-- Claim C6: when a byte-sequence read decodes its size prefix but
fewer bytes remain than the size requires, the read fails with the
bounds error and the final state is exactly the state just past the size
prefix (the cursor does not advance into the payload). -/
theorem C6_bytes_insufficient :
    ∀ (d d0 : Decoder) (n : Nat), d.size = (.ok n, d0) → d0.length < d0.index + n →
      d.bytes = (.error Error.out_of_bounds, d0) := by
  intro d d0 n hs hlen
  unfold Decoder.bytes
  rw [hs]
  simp only [rtry]
  rw [if_pos hlen]

/-- Witness for C6: buffer [5] whose size prefix decodes to 5 with only
0 bytes remaining; the bytes read fails and the cursor stays at 1. -/
theorem C6_bytes_insufficient_witness :
    (Decoder.new [5]).size = (.ok 5, Decoder.mk 1 1 [5] USIZE_MAX 0) ∧
    (Decoder.mk 1 1 [5] USIZE_MAX 0).length <
      (Decoder.mk 1 1 [5] USIZE_MAX 0).index + 5 ∧
    (Decoder.new [5]).bytes = (.error Error.out_of_bounds, Decoder.mk 1 1 [5] USIZE_MAX 0) :=
  ⟨by decide, by decide,
   C6_bytes_insufficient (Decoder.new [5]) (Decoder.mk 1 1 [5] USIZE_MAX 0) 5
     (by decide) (by decide)⟩

/-- Claim C7: a text read whose underlying byte-sequence read succeeds
but yields invalid UTF-8 fails with the decode-validity error, which is
distinct from the bounds error, and the final state is the one the
successful bytes read produced (the cursor stays advanced past the
consumed bytes). -/
theorem C7_invalid_utf8 :
    ∀ (d d0 : Decoder) (payload : List Nat),
      d.bytes = (.ok payload, d0) → validUtf8 payload = false →
      d.string = (.error (Error.new ("Couldn't decode UTF-8 string")), d0) ∧
      Error.new ("Couldn't decode UTF-8 string") ≠ Error.out_of_bounds := by
  intro d d0 p hb hv
  constructor
  · simp [Decoder.string, hb, hv]
  · decide

/-- Witness for C7: buffer [1, 255]; the bytes read returns [255] with
the cursor at 2, 255 is not valid UTF-8, and the string read fails with
the decode error while the cursor stays at 2. -/
theorem C7_invalid_utf8_witness :
    (Decoder.new [1, 255]).bytes = (.ok [255], Decoder.mk 2 2 [1, 255] USIZE_MAX 0) ∧
    validUtf8 [255] = false ∧
    (Decoder.new [1, 255]).string =
      (.error (Error.new ("Couldn't decode UTF-8 string")), Decoder.mk 2 2 [1, 255] USIZE_MAX 0) :=
  ⟨by decide, by decide,
   (C7_invalid_utf8 (Decoder.new [1, 255]) (Decoder.mk 2 2 [1, 255] USIZE_MAX 0) [255]
     (by decide) (by decide)).1⟩

/-- Claim C8: a size write (or a byte-sequence or text write) whose
magnitude exceeds 1073741823 leaves the buffer unchanged — no prefix and
no payload bytes are appended — while storing the deferred error; the
write still returns an Encoder so chaining continues (witnessed by a
subsequent write still appending normally). -/
theorem C8_oversize_no_append :
    (∀ (e : Encoder) (n : Nat), 1073741823 < n →
      (e.size n).data = e.data ∧
      (e.size n).last_error = some (Error.new ("[size] value is too large")) ∧
      (∀ v : Nat, ((e.size n).uint8 v).data = e.data ++ [v % 256])) ∧
    (∀ (e : Encoder) (payload : List Nat), 1073741823 < payload.length →
      (e.bytes payload).data = e.data ∧
      (e.bytes payload).last_error = some (Error.new ("[bytes] is too long"))) ∧
    (∀ (e : Encoder) (payload : List Nat), 1073741823 < payload.length →
      (e.string payload).data = e.data ∧
      (e.string payload).last_error = some (Error.new ("[string] is too long"))) := by
  refine ⟨fun e n hn => ?_, fun e p hp => ?_, fun e p hp => ?_⟩
  · unfold Encoder.size
    rw [if_pos hn]
    exact ⟨rfl, rfl, fun v => rfl⟩
  · unfold Encoder.bytes
    rw [if_pos hp]
    exact ⟨rfl, rfl⟩
  · unfold Encoder.string
    rw [if_pos hp]
    exact ⟨rfl, rfl⟩

/-- Witness for C8: the oversize size value 1073741824 and oversize
byte/text payloads of length 1073741824 leave the fresh Encoder's empty
buffer unchanged and store the respective errors. -/
theorem C8_oversize_no_append_witness :
    (1073741823 < 1073741824 ∧
      (Encoder.new.size 1073741824).data = Encoder.new.data ∧
      (Encoder.new.size 1073741824).last_error =
        some (Error.new ("[size] value is too large")) ∧
      ((Encoder.new.size 1073741824).uint8 7).data = Encoder.new.data ++ [7 % 256]) ∧
    ((Encoder.new.bytes (List.replicate 1073741824 0)).data = Encoder.new.data ∧
      (Encoder.new.bytes (List.replicate 1073741824 0)).last_error =
        some (Error.new ("[bytes] is too long"))) ∧
    ((Encoder.new.string (List.replicate 1073741824 0)).data = Encoder.new.data ∧
      (Encoder.new.string (List.replicate 1073741824 0)).last_error =
        some (Error.new ("[string] is too long"))) := by
  have hlen : 1073741823 < (List.replicate 1073741824 (0 : Nat)).length := by
    rw [List.length_replicate]
    norm_num
  obtain ⟨h1, h2, h3⟩ := C8_oversize_no_append.1 Encoder.new 1073741824 (by norm_num)
  obtain ⟨h4, h5⟩ := C8_oversize_no_append.2.1 Encoder.new (List.replicate 1073741824 0) hlen
  obtain ⟨h6, h7⟩ := C8_oversize_no_append.2.2 Encoder.new (List.replicate 1073741824 0) hlen
  exact ⟨⟨by norm_num, h1, h2, h3 7⟩, ⟨h4, h5⟩, ⟨h6, h7⟩⟩

/-- Claim C9: encoding uint8 5, bool true, string "ok" and finalizing
yields exactly [0x05, 0x01, 0x02, 0x6F, 0x6B]; decoding those bytes with
uint8, bool, string returns 5, true, "ok" and the end-of-stream check
then reports true. -/
theorem C9_example_scenario :
    (((Encoder.new.uint8 5).bool true).string [0x6F, 0x6B]).finalize =
      .ok [0x05, 0x01, 0x02, 0x6F, 0x6B] ∧
    ((Decoder.new [0x05, 0x01, 0x02, 0x6F, 0x6B]).uint8).1 = .ok 5 ∧
    (((Decoder.new [0x05, 0x01, 0x02, 0x6F, 0x6B]).uint8).2.bool).1 = .ok true ∧
    ((((Decoder.new [0x05, 0x01, 0x02, 0x6F, 0x6B]).uint8).2.bool).2.string).1 =
      .ok [0x6F, 0x6B] ∧
    ((((Decoder.new [0x05, 0x01, 0x02, 0x6F, 0x6B]).uint8).2.bool).2.string).2.atEnd =
      true := by decide

/-- Claim C10: a Decoder boolean read returns the bounds error exactly
when it starts a fresh packing run (the packing state does not mark a
run at the current cursor, or the run already holds 8 bits) with the
cursor at or past the buffer length; a continuing read (the 2nd through
8th of a run) always succeeds, leaves the cursor and buffer untouched,
and its value depends only on the already-consumed run byte at position
cursor - 1, even when the end-of-stream check reports true. -/
theorem C10_bool_read_bounds :
    ∀ d : Decoder,
      ((d.bool).1 = .error Error.out_of_bounds ↔
        ¬(d.bool_index = d.index ∧ d.bool_shift < 7) ∧ d.length ≤ d.index) ∧
      (d.bool_index = d.index ∧ d.bool_shift < 7 →
        (d.bool).2.index = d.index ∧ (d.bool).2.data = d.data ∧
        (d.bool).1 = .ok (decide (d.data.getD (d.index - 1) 0 &&&
          1 <<< (d.bool_shift + 1) = 1 <<< (d.bool_shift + 1)))) := by
  intro d
  by_cases hc : d.bool_index = d.index ∧ d.bool_shift < 7
  · rw [bool_dec_cont d hc.1 hc.2]
    exact ⟨iff_of_false (by simp) (fun hfa => hfa.1 hc), fun _ => ⟨rfl, rfl, rfl⟩⟩
  · by_cases hl : d.length ≤ d.index
    · rw [bool_dec_fresh_err d hc hl]
      exact ⟨iff_of_true rfl ⟨hc, hl⟩, fun h => absurd h hc⟩
    · rw [bool_dec_fresh_ok d hc (by omega)]
      exact ⟨iff_of_false (by simp) (fun hfa => hl hfa.2), fun h => absurd h hc⟩

/-- Witness for C10 at the state reached after one boolean read of the
buffer [3]: the end-of-stream check is true, yet the 2nd read of the run
succeeds with value true (bit 1 of byte 3) without moving the cursor. -/
theorem C10_bool_read_bounds_witness :
    ((Decoder.mk 1 1 [3] 1 0).bool_index = (Decoder.mk 1 1 [3] 1 0).index ∧
      (Decoder.mk 1 1 [3] 1 0).bool_shift < 7) ∧
    (Decoder.mk 1 1 [3] 1 0).atEnd = true ∧
    ((Decoder.mk 1 1 [3] 1 0).bool).2.index = 1 ∧
    ((Decoder.mk 1 1 [3] 1 0).bool).2.data = [3] ∧
    ((Decoder.mk 1 1 [3] 1 0).bool).1 = .ok true := by
  have h := (C10_bool_read_bounds (Decoder.mk 1 1 [3] 1 0)).2 ⟨rfl, by norm_num⟩
  refine ⟨⟨rfl, by norm_num⟩, by decide, h.1, h.2.1, ?_⟩
  rw [h.2.2]
  decide
